import Mathlib

/-!
Verification development for the NAMASTE to ICD-11 terminology mapping engine
(`app/services/mapping_service.py` together with the collaborator contracts of
`app/services/namaste_service.py` and `app/services/icd11_service.py`).

The Python source is shallowly embedded: dictionaries become structures, the
stateful `MappingService` methods become pure functions that receive the
terminology provider (the external collaborator wrapping
`icd11_service.search_icd11_codes` / `get_icd11_code_details`) as an explicit
argument, Python `try/except` blocks become `Except` values that the wrapping
function discharges exactly where the source catches, and Python floats become
rationals.  The text-similarity ratio used by `_calculate_similarity` comes
from the external `difflib` library; following the specification contract
(section 4.1: any standard sequence-similarity ratio in [0,1] with 1.0 on
identical strings is acceptable) it is modelled as an explicit function
parameter `r`, and a concrete longest-common-subsequence ratio `seqScore`
satisfying that contract is provided for concrete evaluations.
-/

/-! ## Embedded definitions -/

/-- Lower-casing of a string, character by character, mirroring the ASCII
effect of Python `str.lower()` on the data handled by this service. -/
def lcase (s : String) : String :=
  String.mk (s.data.map Char.toLower)

/-- Python whitespace characters recognised by `str.strip()` (the subset that
occurs in this code base). -/
def isPyWhitespace (c : Char) : Bool :=
  c = ' ' || c = '\t' || c = '\n' || c = '\r'

/-- Python `str.strip()` on the character list level. -/
def pyStrip (s : String) : String :=
  String.mk (((s.data.dropWhile isPyWhitespace).reverse.dropWhile isPyWhitespace).reverse)

/-- Substring test on character lists: does `needle` occur contiguously inside
`hay`?  Mirrors Python `needle in hay` for strings. -/
def charsContain (hay needle : List Char) : Bool :=
  match hay with
  | [] => needle.isEmpty
  | _ :: t => needle.isPrefixOf hay || charsContain t needle

/-- Python `needle in hay` on strings. -/
def strContains (hay needle : String) : Bool :=
  charsContain hay.data needle.data

/-- The part of a string before the first parenthesis character, mirroring
Python `re.split(r'[\x28\x29]', s)[0]` from `_extract_search_terms`. -/
def beforeParen (s : String) : String :=
  String.mk (s.data.takeWhile (fun c => c ≠ '(' && c ≠ ')'))

/-- Length of a longest common subsequence of two character lists, computed
with an explicit fuel argument so that the recursion is structural. -/
def lcsLenFuel : Nat → List Char → List Char → Nat
  | 0, _, _ => 0
  | _ + 1, [], _ => 0
  | _ + 1, _ :: _, [] => 0
  | n + 1, a :: as, b :: bs =>
    if a = b then lcsLenFuel n as bs + 1
    else max (lcsLenFuel n (a :: as) bs) (lcsLenFuel n as (b :: bs))

/-- Length of a longest common subsequence of two character lists. -/
def lcsLen (la lb : List Char) : Nat :=
  lcsLenFuel (la.length + lb.length) la lb

/-- Normalized sequence-similarity ratio on character lists: twice the
longest-common-subsequence length divided by the total length, with the
empty-against-empty case defined as 1 (as `difflib` does). -/
def lcsScore (la lb : List Char) : ℚ :=
  if la.length + lb.length = 0 then 1
  else (2 * lcsLen la lb : ℚ) / ((la.length : ℚ) + (lb.length : ℚ))

/-- Normalized sequence-similarity ratio on strings. -/
def seqScore (a b : String) : ℚ :=
  lcsScore a.data b.data

/-- Contract on a text-similarity ratio required by the specification:
identical strings score 1 and every score lies in [0, 1]. -/
def RatioOK (r : String → String → ℚ) : Prop :=
  (∀ s, r s s = 1) ∧ (∀ a b, 0 ≤ r a b ∧ r a b ≤ 1)

/-- A formatted ICD-11 search result as produced by
`icd11_service.search_icd11_codes` (keys `id`, `code`, `display`,
`definition`, `system`, `systemName`, `isLeaf`). -/
structure IcdEntry where
  id : String
  code : String
  display : String
  definition : String
  system : String
  systemName : String
  isLeaf : Bool
deriving DecidableEq

/-- A raw row of the sample NAMASTE data set built by
`namaste_service.create_sample_namaste_data`. -/
structure NamRow where
  code : String
  display : String
  definition : String
  system : String
  category : String
  body_system : String
deriving DecidableEq

/-- A formatted NAMASTE record as produced by
`namaste_service.get_namaste_code_details` and
`namaste_service.search_namaste_codes`.  The `version` key is present only in
the `get_namaste_code_details` output, hence the `Option`. -/
structure NamDetails where
  code : String
  display : String
  definition : String
  system : String
  category : String
  bodySystem : String
  codeSystem : String
  version : Option String
deriving DecidableEq

/-- An entry of the predefined mapping table built by
`MappingService._init_mapping_rules` (keys `system`, `code`, `equivalence`). -/
structure PredefEntry where
  system : String
  code : String
  equivalence : String
deriving DecidableEq

/-- A forward mapping candidate: an ICD-11 search result dictionary extended
in place with the keys `equivalence`, `mappingMethod` and `confidence` by
`translate_namaste_to_icd11` or `_perform_automatic_mapping`. -/
structure FwdCandidate where
  base : IcdEntry
  equivalence : String
  mappingMethod : String
  confidence : ℚ
deriving DecidableEq

/-- A reverse mapping candidate: a NAMASTE record extended in place with the
keys `equivalence`, `mappingMethod` and `confidence` by
`reverse_translate_icd11_to_namaste`. -/
structure RevCandidate where
  details : NamDetails
  equivalence : String
  mappingMethod : String
  confidence : ℚ
deriving DecidableEq

/-- The Terminology Provider collaborator as seen from the mapping service:
`searchIcd` wraps `icd11_service.search_icd11_codes` (which can raise, hence
`Except`) and `getIcdDetails` wraps `icd11_service.get_icd11_code_details`
(which catches its own errors and returns `None`, hence `Option`). -/
structure Provider where
  searchIcd : String → String → Nat → Except Unit (List IcdEntry)
  getIcdDetails : String → Option IcdEntry

/-- The `code_system_url` attribute of `NAMASTEService`. -/
def namaste_code_system_url : String :=
  "http://terminology.mohayush.gov.in/namaste"

/-- The `code_system_version` attribute of `NAMASTEService`. -/
def namaste_code_system_version : String :=
  "1.0.0"

/-- The sample NAMASTE vocabulary from
`namaste_service.create_sample_namaste_data`, row for row. -/
def create_sample_namaste_data : List NamRow :=
  [ { code := "NAM001", display := "Ama (Undigested food toxins)",
      definition := "Accumulation of undigested food particles leading to toxicity",
      system := "Ayurveda", category := "Digestive Disorders",
      body_system := "Gastrointestinal" },
    { code := "NAM002", display := "Vata Dosha Imbalance",
      definition := "Constitutional imbalance of Vata dosha affecting movement and nervous system",
      system := "Ayurveda", category := "Constitutional Disorders",
      body_system := "Nervous System" },
    { code := "NAM003", display := "Pitta Dosha Imbalance",
      definition := "Constitutional imbalance of Pitta dosha affecting metabolism and heat",
      system := "Ayurveda", category := "Constitutional Disorders",
      body_system := "Metabolic System" },
    { code := "NAM004", display := "Kapha Dosha Imbalance",
      definition := "Constitutional imbalance of Kapha dosha affecting structure and immunity",
      system := "Ayurveda", category := "Constitutional Disorders",
      body_system := "Immune System" },
    { code := "NAM005", display := "Ajirna (Indigestion)",
      definition := "Impaired digestion leading to various gastrointestinal symptoms",
      system := "Ayurveda", category := "Digestive Disorders",
      body_system := "Gastrointestinal" },
    { code := "SID001", display := "Vatham Imbalance",
      definition := "Vatham dosha imbalance in Siddha system",
      system := "Siddha", category := "Constitutional Disorders",
      body_system := "Nervous System" },
    { code := "SID002", display := "Pitham Imbalance",
      definition := "Pitham dosha imbalance in Siddha system",
      system := "Siddha", category := "Constitutional Disorders",
      body_system := "Metabolic System" },
    { code := "UNA001", display := "Su-i-Mizaj (Temperament Disorder)",
      definition := "Imbalance in temperament according to Unani medicine",
      system := "Unani", category := "Temperament Disorders",
      body_system := "Constitutional" },
    { code := "UNA002", display := "Soo-i-Hazm (Dyspepsia)",
      definition := "Digestive disorder characterized by impaired digestion",
      system := "Unani", category := "Digestive Disorders",
      body_system := "Gastrointestinal" },
    { code := "NAM006", display := "Shirahshula (Headache)",
      definition := "Head pain due to various doshic imbalances",
      system := "Ayurveda", category := "Neurological Disorders",
      body_system := "Nervous System" } ]

/-- Formatting of a raw row by `get_namaste_code_details` (includes the
`version` key). -/
def formatDetails (row : NamRow) : NamDetails :=
  { code := row.code, display := row.display, definition := row.definition,
    system := row.system, category := row.category,
    bodySystem := row.body_system, codeSystem := namaste_code_system_url,
    version := some namaste_code_system_version }

/-- Formatting of a raw row by `search_namaste_codes` (no `version` key). -/
def formatSearchResult (row : NamRow) : NamDetails :=
  { code := row.code, display := row.display, definition := row.definition,
    system := row.system, category := row.category,
    bodySystem := row.body_system, codeSystem := namaste_code_system_url,
    version := none }

/-- `namaste_service.get_namaste_code_details`: first row whose code equals
the requested code, formatted; `none` when absent. -/
def get_namaste_code_details (code : String) (data : List NamRow) :
    Option NamDetails :=
  (data.find? (fun row => row.code = code)).map formatDetails

/-- `namaste_service.search_namaste_codes`: the search term is lower-cased
and stripped, rows matching it as a substring of the lower-cased code,
display or definition are collected up to `limit`, then formatted. -/
def search_namaste_codes (term : String) (data : List NamRow) (limit : Nat) :
    List NamDetails :=
  let t := pyStrip (lcase term)
  ((data.filter (fun row =>
      strContains (lcase row.code) t || strContains (lcase row.display) t ||
        strContains (lcase row.definition) t)).take limit).map formatSearchResult

/-- The `icd11_tm2_url` attribute of `ICD11Service`. -/
def icd11_tm2_url : String :=
  "http://id.who.int/icd/release/11/2023-01/tm2"

/-- The `icd11_biomedicine_url` attribute of `ICD11Service`. -/
def icd11_biomedicine_url : String :=
  "http://id.who.int/icd/release/11/2023-01/mms"

/-- The three TM2 entities of `_get_mock_icd11_data`, as formatted by
`_search_tm2_codes`. -/
def mockTm2Entries : List IcdEntry :=
  [ { id := "http://id.who.int/icd/release/11/2023-01/tm2/1234567890",
      code := "TM2.01",
      display := "Traditional Medicine Pattern - Constitutional Type",
      definition := "Traditional medicine constitutional pattern disorders",
      system := icd11_tm2_url,
      systemName := "ICD-11 Traditional Medicine Module 2", isLeaf := true },
    { id := "http://id.who.int/icd/release/11/2023-01/tm2/1234567891",
      code := "TM2.02",
      display := "Traditional Medicine Pattern - Digestive Disorders",
      definition := "Traditional medicine digestive pattern disorders",
      system := icd11_tm2_url,
      systemName := "ICD-11 Traditional Medicine Module 2", isLeaf := true },
    { id := "http://id.who.int/icd/release/11/2023-01/tm2/1234567892",
      code := "TM2.03",
      display := "Traditional Medicine Pattern - Neurological Disorders",
      definition := "Traditional medicine neurological pattern disorders",
      system := icd11_tm2_url,
      systemName := "ICD-11 Traditional Medicine Module 2", isLeaf := true } ]

/-- The two biomedicine entities of `_get_mock_icd11_data`, as formatted by
`_search_biomedicine_codes`. -/
def mockBioEntries : List IcdEntry :=
  [ { id := "http://id.who.int/icd/release/11/2023-01/mms/1234567890",
      code := "K59.0", display := "Constipation",
      definition := "Difficulty in passing stools or infrequent bowel movements",
      system := icd11_biomedicine_url,
      systemName := "ICD-11 Biomedicine", isLeaf := true },
    { id := "http://id.who.int/icd/release/11/2023-01/mms/1234567891",
      code := "G44.2", display := "Tension-type headache",
      definition := "Primary headache disorder characterized by bilateral pain",
      system := icd11_biomedicine_url,
      systemName := "ICD-11 Biomedicine", isLeaf := true } ]

/-- The demo-mode Terminology Provider: `search_icd11_codes` returns the full
mock entity list of the requested sub-system (the mock layer ignores the query
string and the limit), and `get_icd11_code_details` is not backed by mock data
keyed on plain codes, so it yields `none`. -/
def mockProvider : Provider :=
  { searchIcd := fun _ system _ =>
      Except.ok
        ((if system = "tm2" || system = "both" then mockTm2Entries else []) ++
          (if system = "biomedicine" || system = "both" then mockBioEntries else [])),
    getIcdDetails := fun _ => none }

/-- A Terminology Provider whose search capability always fails, modelling a
collaborator outage (`search_icd11_codes` raising). -/
def failProvider : Provider :=
  { searchIcd := fun _ _ _ => Except.error (),
    getIcdDetails := fun _ => none }

/-- The predefined mapping table of `MappingService._init_mapping_rules`,
entry for entry in source order. -/
def predefined_mappings : List (String × List PredefEntry) :=
  [ ("NAM001",
      [ { system := "tm2", code := "TM2.02", equivalence := "equivalent" },
        { system := "biomedicine", code := "K30", equivalence := "wider" } ]),
    ("NAM002",
      [ { system := "tm2", code := "TM2.01", equivalence := "equivalent" },
        { system := "biomedicine", code := "Z73.3", equivalence := "wider" } ]),
    ("NAM003",
      [ { system := "tm2", code := "TM2.01", equivalence := "equivalent" },
        { system := "biomedicine", code := "Z73.3", equivalence := "wider" } ]),
    ("NAM004",
      [ { system := "tm2", code := "TM2.01", equivalence := "equivalent" },
        { system := "biomedicine", code := "Z73.3", equivalence := "wider" } ]),
    ("NAM005",
      [ { system := "tm2", code := "TM2.02", equivalence := "equivalent" },
        { system := "biomedicine", code := "K30", equivalence := "equivalent" } ]),
    ("NAM006",
      [ { system := "tm2", code := "TM2.03", equivalence := "equivalent" },
        { system := "biomedicine", code := "G44.2", equivalence := "equivalent" } ]),
    ("SID001",
      [ { system := "tm2", code := "TM2.01", equivalence := "equivalent" },
        { system := "biomedicine", code := "Z73.3", equivalence := "wider" } ]),
    ("SID002",
      [ { system := "tm2", code := "TM2.01", equivalence := "equivalent" },
        { system := "biomedicine", code := "Z73.3", equivalence := "wider" } ]),
    ("UNA001",
      [ { system := "tm2", code := "TM2.01", equivalence := "equivalent" },
        { system := "biomedicine", code := "Z73.3", equivalence := "wider" } ]),
    ("UNA002",
      [ { system := "tm2", code := "TM2.02", equivalence := "equivalent" },
        { system := "biomedicine", code := "K30", equivalence := "equivalent" } ]) ]

/-- `MappingService._extract_search_terms`: search terms for a NAMASTE record,
accumulated exactly as in the source (within each of the category, body-system
and display-keyword blocks only the first matching `if`/`elif` branch fires),
then deduplicated.  Python materialises the deduplicated terms via
`list(set(terms))`, whose order is unspecified; `List.dedup` is used here and
all properties proved about the result are order-insensitive. -/
def extract_search_terms (d : NamDetails) : List String :=
  let display := lcase d.display
  let mainTerm := pyStrip (beforeParen display)
  let terms := if mainTerm ≠ "" then [mainTerm] else []
  let category := lcase d.category
  let terms := terms ++
    (if strContains category ("digestive") then ["digestion", "stomach", "gastric"]
     else if strContains category ("constitutional") then
       ["constitutional", "temperament", "pattern"]
     else if strContains category ("neurological") then
       ["neurological", "nervous", "brain"]
     else [])
  let bodySystem := lcase d.bodySystem
  let terms := terms ++
    (if strContains bodySystem ("gastrointestinal") then
       ["gastrointestinal", "digestive"]
     else if strContains bodySystem ("nervous") then ["nervous", "neurological"]
     else [])
  let terms := terms ++
    (if strContains display ("headache") then ["headache", "cephalgia"]
     else if strContains display ("indigestion") then ["indigestion", "dyspepsia"]
     else if strContains display ("dosha") then ["constitutional", "pattern"]
     else [])
  terms.dedup

/-- The fixed vocabulary of clinically generic terms scanned by
`_calculate_keyword_bonus`. -/
def common_terms : List String :=
  [ "pain", "disorder", "syndrome", "disease", "condition",
    "digestive", "neurological", "constitutional", "headache",
    "indigestion", "imbalance" ]

/-- `MappingService._calculate_keyword_bonus` on the two concatenated
lower-cased texts: 0.1 per shared generic term, capped at 1. -/
def calculate_keyword_bonus (namasteText icdText : String) : ℚ :=
  min
    (common_terms.foldl
      (fun bonus term =>
        if strContains namasteText term && strContains icdText term then
          bonus + 1 / 10
        else bonus)
      0)
    1

/-- `MappingService._calculate_similarity` for two records given by their
`display` and `definition` texts, parameterised by the text-similarity ratio
`r` (the `difflib.SequenceMatcher(None, a, b).ratio()` of the source). -/
def calculate_similarity (r : String → String → ℚ)
    (namDisplay namDefinition icdDisplay icdDefinition : String) : ℚ :=
  let displaySimilarity := r (lcase namDisplay) (lcase icdDisplay)
  let defSimilarity := r (lcase namDefinition) (lcase icdDefinition)
  let keywordBonus := calculate_keyword_bonus
    (lcase (namDisplay ++ " " ++ namDefinition))
    (lcase (icdDisplay ++ " " ++ icdDefinition))
  min (displaySimilarity * (4 / 10) + defSimilarity * (4 / 10) +
    keywordBonus * (2 / 10)) 1

/-- `MappingService._determine_equivalence`. -/
def determine_equivalence (confidence : ℚ) : String :=
  if 8 / 10 ≤ confidence then ("equivalent")
  else if 6 / 10 ≤ confidence then ("wider")
  else if 4 / 10 ≤ confidence then ("narrower")
  else ("related")

/-- Scoring loop body shared by both sub-system branches of
`_perform_automatic_mapping`: each provider match is scored against the
NAMASTE record, matches with confidence strictly above 0.3 are kept and
tagged with `method = automatic` and a classified equivalence. -/
def scoreMatches (r : String → String → ℚ) (nd : NamDetails)
    (ms : List IcdEntry) : List FwdCandidate :=
  ms.filterMap (fun m =>
    let confidence := calculate_similarity r nd.display nd.definition
      m.display m.definition
    if 3 / 10 < confidence then
      some { base := m, equivalence := determine_equivalence confidence,
             mappingMethod := "automatic", confidence := confidence }
    else none)

/-- The search loop of `_perform_automatic_mapping`: for every extracted
search term, query the provider against each requested sub-system with
limit 3 and score the matches.  A provider exception aborts the whole loop,
as in the source where it unwinds to the enclosing `except`. -/
def termLoop (r : String → String → ℚ) (p : Provider) (nd : NamDetails)
    (targetSystem : String) : List String → Except Unit (List FwdCandidate)
  | [] => Except.ok []
  | t :: ts =>
    match (if targetSystem = "tm2" || targetSystem = "both" then
        (p.searchIcd t ("tm2") 3).map (scoreMatches r nd)
      else Except.ok []) with
    | Except.error e => Except.error e
    | Except.ok tm2Part =>
      match (if targetSystem = "biomedicine" || targetSystem = "both" then
          (p.searchIcd t ("biomedicine") 3).map (scoreMatches r nd)
        else Except.ok []) with
      | Except.error e => Except.error e
      | Except.ok bioPart =>
        match termLoop r p nd targetSystem ts with
        | Except.error e => Except.error e
        | Except.ok rest => Except.ok (tm2Part ++ bioPart ++ rest)

/-- The descending-confidence order used by the source's
`sorted(results, key=lambda x: x['confidence'], reverse=True)`.  The sort of
the source is Python's stable sort; every stable sort produces the same list,
so the embedding uses stable insertion sort. -/
def fwdConfGe (a b : FwdCandidate) : Prop :=
  b.confidence ≤ a.confidence

instance : DecidableRel fwdConfGe := fun a b =>
  inferInstanceAs (Decidable (b.confidence ≤ a.confidence))

instance : IsTotal FwdCandidate fwdConfGe :=
  ⟨fun a b => le_total b.confidence a.confidence⟩

instance : IsTrans FwdCandidate fwdConfGe :=
  ⟨fun _ _ _ h1 h2 => le_trans h2 h1⟩

/-- The deduplication key of `_perform_automatic_mapping`:
`f"{system}:{code}"`. -/
def candidateKey (c : FwdCandidate) : String :=
  c.base.system ++ ":" ++ c.base.code

/-- The duplicate-removal loop of `_perform_automatic_mapping`: walk the
sorted candidates and keep the first occurrence of each
`f"{system}:{code}"` key. -/
def dedupByKey : List FwdCandidate → List String → List FwdCandidate
  | [], _ => []
  | c :: rest, seen =>
    if candidateKey c ∈ seen then dedupByKey rest seen
    else c :: dedupByKey rest (candidateKey c :: seen)

/-- The raw (pre-deduplication) candidate list of
`_perform_automatic_mapping`. -/
def perform_automatic_candidates (r : String → String → ℚ) (p : Provider)
    (namasteCode targetSystem : String) : Except Unit (List FwdCandidate) :=
  match get_namaste_code_details namasteCode create_sample_namaste_data with
  | none => Except.ok []
  | some nd => termLoop r p nd targetSystem (extract_search_terms nd)

/-- `MappingService._perform_automatic_mapping`: gather candidates, sort by
descending confidence, deduplicate by `(system, code)` keeping the first
(highest-confidence) instance, truncate to 5.  The enclosing `except` of the
source converts a provider failure into an empty list. -/
def perform_automatic_mapping (r : String → String → ℚ) (p : Provider)
    (namasteCode targetSystem : String) : List FwdCandidate :=
  match perform_automatic_candidates r p namasteCode targetSystem with
  | Except.error _ => []
  | Except.ok results =>
    (dedupByKey (results.insertionSort fwdConfGe) []).take 5

/-- The predefined-branch loop of `translate_namaste_to_icd11`: for each
curated target whose sub-system passes the filter, look the code up via the
provider (limit 1) and, when an entry comes back, emit a candidate with the
curated equivalence, `method = predefined` and confidence 0.9. -/
def predefLoop (p : Provider) (targetSystem : String) :
    List PredefEntry → Except Unit (List FwdCandidate)
  | [] => Except.ok []
  | m :: rest =>
    if targetSystem = "both" || targetSystem = m.system then
      match (if m.system = "tm2" then p.searchIcd m.code ("tm2") 1
        else p.searchIcd m.code ("biomedicine") 1) with
      | Except.error e => Except.error e
      | Except.ok icdResults =>
        match icdResults with
        | [] => predefLoop p targetSystem rest
        | first :: _ =>
          match predefLoop p targetSystem rest with
          | Except.error e => Except.error e
          | Except.ok tail =>
            Except.ok
              ({ base := first, equivalence := m.equivalence,
                 mappingMethod := "predefined",
                 confidence := 9 / 10 } :: tail)
    else predefLoop p targetSystem rest

/-- The body of `MappingService.translate_namaste_to_icd11` up to its
`except` handler: predefined mappings short-circuit, otherwise automatic
mapping runs (whose own `except` already yields a plain list). -/
def translate_namaste_to_icd11_body (r : String → String → ℚ) (p : Provider)
    (namasteCode targetSystem : String) : Except Unit (List FwdCandidate) :=
  match predefined_mappings.lookup namasteCode with
  | some mappings => predefLoop p targetSystem mappings
  | none => Except.ok (perform_automatic_mapping r p namasteCode targetSystem)

/-- `MappingService.translate_namaste_to_icd11`: the `except` handler of the
source logs the failure and returns the empty list. -/
def translate_namaste_to_icd11 (r : String → String → ℚ) (p : Provider)
    (namasteCode targetSystem : String) : List FwdCandidate :=
  match translate_namaste_to_icd11_body r p namasteCode targetSystem with
  | Except.error _ => []
  | Except.ok results => results

/-- The predefined scan of `reverse_translate_icd11_to_namaste`: every
curated (source code, target entry) pair matching the requested
`(system, code)` yields a candidate with the curated equivalence,
`method = predefined` and confidence 0.9, in table order. -/
def predefReverseScan (icd11Code icd11System : String) : List RevCandidate :=
  (predefined_mappings.map (fun kv =>
    kv.2.filterMap (fun m =>
      if m.system = icd11System && m.code = icd11Code then
        (get_namaste_code_details kv.1 create_sample_namaste_data).map
          (fun nd =>
            { details := nd, equivalence := m.equivalence,
              mappingMethod := "predefined", confidence := 9 / 10 })
      else none))).flatten

/-- The descending-confidence order of the reverse path
(`sorted(results, key=lambda x: x.get('confidence', 0), reverse=True)`,
again a stable sort). -/
def revConfGe (a b : RevCandidate) : Prop :=
  b.confidence ≤ a.confidence

instance : DecidableRel revConfGe := fun a b =>
  inferInstanceAs (Decidable (b.confidence ≤ a.confidence))

instance : IsTotal RevCandidate revConfGe :=
  ⟨fun a b => le_total b.confidence a.confidence⟩

instance : IsTrans RevCandidate revConfGe :=
  ⟨fun _ _ _ h1 h2 => le_trans h2 h1⟩

/-- The automatic branch of `reverse_translate_icd11_to_namaste`: the target
entry's display and definition each serve as a free-text query against the
source vocabulary (limit 5); results are scored with roles reversed, filtered
strictly above 0.3 and tagged `method = automatic_reverse`. -/
def autoReverse (r : String → String → ℚ) (icd : IcdEntry) :
    List RevCandidate :=
  ([icd.display, icd.definition].map (fun term =>
    if term = "" then []
    else
      (search_namaste_codes term create_sample_namaste_data 5).filterMap
        (fun m =>
          let confidence := calculate_similarity r m.display m.definition
            icd.display icd.definition
          if 3 / 10 < confidence then
            some { details := m,
                   equivalence := determine_equivalence confidence,
                   mappingMethod := "automatic_reverse",
                   confidence := confidence }
          else none))).flatten

/-- `MappingService.reverse_translate_icd11_to_namaste`: predefined matches
first; only when none exist, automatic reverse mapping; final sort by
descending confidence with no truncation.  No call in this body can raise in
the embedding (`get_icd11_code_details` already returns `none` on failure),
so the source's `except` handler is unreachable here. -/
def reverse_translate_icd11_to_namaste (r : String → String → ℚ)
    (p : Provider) (icd11Code icd11System : String) : List RevCandidate :=
  let results := predefReverseScan icd11Code icd11System
  let results :=
    if results.isEmpty then
      match p.getIcdDetails icd11Code with
      | none => []
      | some icd => autoReverse r icd
    else results
  results.insertionSort revConfGe

/-- The possible shapes of a `validate_mapping` return dictionary: the two
not-found early returns, the `except`-handler dictionary carrying a reason,
and the full validation result. -/
inductive ValidateResult where
  | namasteNotFound
  | icdNotFound
  | failed
  | result (valid : Bool) (confidence : ℚ)
      (equivalence recommendation : String)
deriving DecidableEq

/-- `MappingService.validate_mapping`: look both codes up, score their text
similarity, classify it and derive the Accept / Review / Reject
recommendation.  The predefined mapping table is never consulted. -/
def validate_mapping (r : String → String → ℚ) (p : Provider)
    (namasteCode icd11Code icd11System : String) : ValidateResult :=
  match get_namaste_code_details namasteCode create_sample_namaste_data with
  | none => ValidateResult.namasteNotFound
  | some nd =>
    match p.searchIcd icd11Code icd11System 1 with
    | Except.error _ => ValidateResult.failed
    | Except.ok [] => ValidateResult.icdNotFound
    | Except.ok (icd :: _) =>
      let confidence := calculate_similarity r nd.display nd.definition
        icd.display icd.definition
      ValidateResult.result (3 / 10 < confidence) confidence
        (determine_equivalence confidence)
        (if 6 / 10 < confidence then ("Accept")
         else if 3 / 10 < confidence then ("Review") else ("Reject"))

/-- One target record of a ConceptMap group element, as appended by
`generate_concept_map`.  The provenance comment of the source is the string
interpolation of `mappingMethod` and `confidence` (two decimals), so it is
carried here by those two fields. -/
structure TargetRecord where
  code : String
  display : String
  equivalence : String
  mappingMethod : String
  confidence : ℚ
deriving DecidableEq

/-- One element of a ConceptMap group: source code, source display and the
target records. -/
structure GroupElement where
  code : String
  display : String
  target : List TargetRecord
deriving DecidableEq

/-- The target record built from a forward candidate by
`generate_concept_map` (`mapping.get('equivalence', 'wider')` etc.; in the
embedding every candidate carries all three keys). -/
def mkTargetRecord (c : FwdCandidate) : TargetRecord :=
  { code := c.base.code, display := c.base.display,
    equivalence := c.equivalence, mappingMethod := c.mappingMethod,
    confidence := c.confidence }

/-- The group-assembly core of `MappingService.generate_concept_map`: one
forward translation per source row per sub-system, appending a group element
exactly when the translation returned at least one candidate.  The identifier
and timestamp of the surrounding FHIR resource belong to the boundary layer
and carry no mapping content. -/
def generate_concept_map_groups (r : String → String → ℚ) (p : Provider)
    (namasteData : List NamRow) : List GroupElement × List GroupElement :=
  (namasteData.filterMap (fun row =>
      let tm2Mappings := translate_namaste_to_icd11 r p row.code ("tm2")
      if tm2Mappings.isEmpty then none
      else some { code := row.code, display := row.display,
                  target := tm2Mappings.map mkTargetRecord }),
    namasteData.filterMap (fun row =>
      let bioMappings := translate_namaste_to_icd11 r p row.code ("biomedicine")
      if bioMappings.isEmpty then none
      else some { code := row.code, display := row.display,
                  target := bioMappings.map mkTargetRecord }))

instance : DecidableEq (Except Unit (List FwdCandidate)) := fun a b =>
  match a, b with
  | Except.error e1, Except.error e2 =>
    isTrue (by cases e1; cases e2; rfl)
  | Except.ok l1, Except.ok l2 =>
    if h : l1 = l2 then isTrue (by rw [h]) else
      isFalse (fun hc => h (by cases hc; rfl))
  | Except.error _, Except.ok _ => isFalse (fun hc => by cases hc)
  | Except.ok _, Except.error _ => isFalse (fun hc => by cases hc)

/-- A provider that returns a single blank entry for the curated biomedicine
code Z73.3: text similarity against it is 0. -/
def blankZProvider : Provider :=
  { searchIcd := fun q sys _ =>
      if q = "Z73.3" && sys = "biomedicine" then
        Except.ok [ { id := "", code := "Z73.3", display := "",
                      definition := "", system := icd11_biomedicine_url,
                      systemName := "", isLeaf := true } ]
      else Except.ok [],
    getIcdDetails := fun _ => none }

/-- A Terminology Provider whose code-details lookup resolves the unmapped
code X99 to an entry textually identical to the sample entry NAM001, so that
both reverse search queries (display and definition) hit the same source
record. -/
def dupTextProvider : Provider :=
  { searchIcd := fun _ _ _ => Except.ok [],
    getIcdDetails := fun c =>
      if c = "X99" then
        some { id := "", code := "X99",
               display := "Ama (Undigested food toxins)",
               definition := "Accumulation of undigested food particles leading to toxicity",
               system := icd11_tm2_url, systemName := "", isLeaf := true }
      else none }

/-- A Terminology Provider returning, for every query, one entry whose
display equals the NAM001 display, giving the same scored candidate for
every search term of the forward automatic path. -/
def sameEntryProvider : Provider :=
  { searchIcd := fun _ _ _ =>
      Except.ok [ { id := "", code := "T1",
                    display := "Ama (Undigested food toxins)",
                    definition := "", system := icd11_tm2_url,
                    systemName := "", isLeaf := true } ],
    getIcdDetails := fun _ => none }

/-- The main-term contribution of search-term extraction: the trimmed text of
the lower-cased display before its first parenthesis, when non-empty. -/
def mainDisplayTerms (d : NamDetails) : List String :=
  let mainTerm := pyStrip (beforeParen (lcase d.display))
  if mainTerm ≠ "" then [mainTerm] else []

/-- The category contribution of search-term extraction: only the first
matching branch of the `if`/`elif` chain fires. -/
def categoryTerms (d : NamDetails) : List String :=
  let category := lcase d.category
  if strContains category ("digestive") then ["digestion", "stomach", "gastric"]
  else if strContains category ("constitutional") then
    ["constitutional", "temperament", "pattern"]
  else if strContains category ("neurological") then
    ["neurological", "nervous", "brain"]
  else []

/-- The body-system contribution of search-term extraction: only the first
matching branch fires. -/
def bodySystemTerms (d : NamDetails) : List String :=
  let bodySystem := lcase d.bodySystem
  if strContains bodySystem ("gastrointestinal") then
    ["gastrointestinal", "digestive"]
  else if strContains bodySystem ("nervous") then ["nervous", "neurological"]
  else []

/-- The display-keyword contribution of search-term extraction: only the
first matching branch of headache / indigestion / dosha fires. -/
def displayKeywordTerms (d : NamDetails) : List String :=
  let display := lcase d.display
  if strContains display ("headache") then ["headache", "cephalgia"]
  else if strContains display ("indigestion") then ["indigestion", "dyspepsia"]
  else if strContains display ("dosha") then ["constitutional", "pattern"]
  else []

/-- A record whose display contains both "dosha" and "headache". -/
def doshaHeadacheDetails : NamDetails :=
  { code := "TST001", display := "Dosha Headache", definition := "",
    system := "", category := "", bodySystem := "", codeSystem := "",
    version := none }

/-! ## Lemmas, claim theorems, witnesses and counterexamples -/

theorem lcsLenFuel_self : ∀ n (l : List Char), l.length ≤ n →
    lcsLenFuel n l l = l.length := by
  intro n
  induction n with
  | zero =>
    intro l h
    match l with
    | [] => rfl
    | _ :: _ => simp at h
  | succ n ih =>
    intro l h
    match l with
    | [] => rfl
    | a :: as =>
      simp only [lcsLenFuel, if_pos rfl]
      rw [ih as (by simp at h; omega)]
      simp

theorem lcsLen_self (l : List Char) : lcsLen l l = l.length := by
  unfold lcsLen
  exact lcsLenFuel_self _ l (by omega)

theorem lcsLenFuel_le : ∀ n (a b : List Char),
    lcsLenFuel n a b ≤ a.length ∧ lcsLenFuel n a b ≤ b.length := by
  intro n
  induction n with
  | zero => intro a b; simp [lcsLenFuel]
  | succ n ih =>
    intro a b
    match a, b with
    | [], _ => simp [lcsLenFuel]
    | _ :: _, [] => simp [lcsLenFuel]
    | x :: xs, y :: ys =>
      by_cases hxy : x = y
      · simp only [lcsLenFuel, if_pos hxy]
        have := ih xs ys
        constructor <;> simp <;> omega
      · simp only [lcsLenFuel, if_neg hxy]
        have i1 := ih (x :: xs) ys
        have i2 := ih xs (y :: ys)
        constructor
        · apply Nat.max_le.mpr
          refine ⟨i1.1, Nat.le_trans i2.1 (by simp)⟩
        · apply Nat.max_le.mpr
          refine ⟨Nat.le_trans i1.2 (by simp), i2.2⟩

theorem lcsScore_self (l : List Char) : lcsScore l l = 1 := by
  unfold lcsScore
  by_cases h : l.length + l.length = 0
  · simp [h]
  · rw [if_neg h, lcsLen_self]
    have hl : l.length ≠ 0 := by omega
    have hne : ((l.length : ℚ) + (l.length : ℚ)) ≠ 0 := by
      have : (0 : ℚ) < (l.length : ℚ) + (l.length : ℚ) := by
        have h0 : 0 < l.length := Nat.pos_of_ne_zero hl
        exact_mod_cast Nat.add_pos_left h0 l.length
      linarith
    rw [div_eq_one_iff_eq hne]
    ring

theorem lcsScore_bounds (la lb : List Char) :
    0 ≤ lcsScore la lb ∧ lcsScore la lb ≤ 1 := by
  unfold lcsScore
  by_cases h : la.length + lb.length = 0
  · simp [h]
  · rw [if_neg h]
    have hpos : (0 : ℚ) < (la.length : ℚ) + (lb.length : ℚ) := by
      have : 0 < la.length + lb.length := Nat.pos_of_ne_zero h
      exact_mod_cast this
    constructor
    · positivity
    · rw [div_le_one hpos]
      have hb := lcsLenFuel_le (la.length + lb.length) la lb
      have h1 : (lcsLen la lb : ℚ) ≤ (la.length : ℚ) := by
        exact_mod_cast hb.1
      have h2 : (lcsLen la lb : ℚ) ≤ (lb.length : ℚ) := by
        exact_mod_cast hb.2
      linarith

theorem seqScore_ok : RatioOK seqScore :=
  ⟨fun s => lcsScore_self s.data, fun a b => lcsScore_bounds a.data b.data⟩

theorem keyword_bonus_foldl_ge (f : ℚ → String → ℚ)
    (hf : ∀ acc t, acc ≤ f acc t) :
    ∀ (l : List String) (acc : ℚ), acc ≤ l.foldl f acc := by
  intro l
  induction l with
  | nil => intro acc; exact le_refl acc
  | cons t ts ih =>
    intro acc
    calc acc ≤ f acc t := hf acc t
      _ ≤ ts.foldl f (f acc t) := ih (f acc t)

theorem calculate_keyword_bonus_nonneg (a b : String) :
    0 ≤ calculate_keyword_bonus a b := by
  unfold calculate_keyword_bonus
  apply le_min
  · apply keyword_bonus_foldl_ge
    intro acc t
    by_cases hc : strContains a t && strContains b t
    · simp only [hc, if_pos]
      linarith
    · simp only [hc]
      split <;> linarith
  · norm_num

/-- Claim C7: the equivalence classifier is a total function of the
confidence value, returning `equivalent` iff `c ≥ 0.8`, `wider` iff
`0.6 ≤ c < 0.8`, `narrower` iff `0.4 ≤ c < 0.6` and `related` iff `c < 0.4`,
each bound inclusive on the lower side, with no error case. -/
theorem claim_C7_equivalence_classifier (c : ℚ) :
    (determine_equivalence c = "equivalent" ↔ 8 / 10 ≤ c) ∧
    (determine_equivalence c = "wider" ↔ 6 / 10 ≤ c ∧ c < 8 / 10) ∧
    (determine_equivalence c = "narrower" ↔ 4 / 10 ≤ c ∧ c < 6 / 10) ∧
    (determine_equivalence c = "related" ↔ c < 4 / 10) := by
  unfold determine_equivalence
  split_ifs with h1 h2 h3
  · exact ⟨⟨fun _ => h1, fun _ => rfl⟩,
      ⟨fun hx => absurd hx (by decide), fun hx => absurd h1 (not_le.mpr hx.2)⟩,
      ⟨fun hx => absurd hx (by decide),
       fun hx => absurd h1 (not_le.mpr (lt_trans hx.2 (by norm_num)))⟩,
      ⟨fun hx => absurd hx (by decide),
       fun hx => absurd h1 (not_le.mpr (lt_trans hx (by norm_num)))⟩⟩
  · exact ⟨⟨fun hx => absurd hx (by decide), fun hx => absurd hx h1⟩,
      ⟨fun _ => ⟨h2, not_le.mp h1⟩, fun _ => rfl⟩,
      ⟨fun hx => absurd hx (by decide), fun hx => absurd h2 (not_le.mpr hx.2)⟩,
      ⟨fun hx => absurd hx (by decide),
       fun hx => absurd h2 (not_le.mpr (lt_trans hx (by norm_num)))⟩⟩
  · exact ⟨⟨fun hx => absurd hx (by decide), fun hx => absurd hx h1⟩,
      ⟨fun hx => absurd hx (by decide), fun hx => absurd hx.1 h2⟩,
      ⟨fun _ => ⟨h3, not_le.mp h2⟩, fun _ => rfl⟩,
      ⟨fun hx => absurd hx (by decide), fun hx => absurd h3 (not_le.mpr hx)⟩⟩
  · exact ⟨⟨fun hx => absurd hx (by decide), fun hx => absurd hx h1⟩,
      ⟨fun hx => absurd hx (by decide), fun hx => absurd hx.1 h2⟩,
      ⟨fun hx => absurd hx (by decide), fun hx => absurd hx.1 h3⟩,
      ⟨fun _ => not_le.mp h3, fun _ => rfl⟩⟩

/-- Claim C8: with a text-similarity ratio satisfying the specification
contract, the similarity score of an entry (non-empty display and definition)
against itself is at least 0.8, and the score of any pair of entries lies in
[0, 1]. -/
theorem claim_C8_similarity_bounds (r : String → String → ℚ)
    (hr : RatioOK r) (selfDisplay selfDefinition bDisplay bDefinition : String)
    (_hd : selfDisplay ≠ "") (_hdef : selfDefinition ≠ "") :
    8 / 10 ≤ calculate_similarity r selfDisplay selfDefinition
      selfDisplay selfDefinition ∧
    0 ≤ calculate_similarity r selfDisplay selfDefinition
      bDisplay bDefinition ∧
    calculate_similarity r selfDisplay selfDefinition bDisplay bDefinition ≤ 1 := by
  obtain ⟨hrefl, hbounds⟩ := hr
  refine ⟨?_, ?_, ?_⟩
  · unfold calculate_similarity
    rw [hrefl (lcase selfDisplay), hrefl (lcase selfDefinition)]
    apply le_min
    · have hkb := calculate_keyword_bonus_nonneg
        (lcase (selfDisplay ++ " " ++ selfDefinition))
        (lcase (selfDisplay ++ " " ++ selfDefinition))
      linarith
    · norm_num
  · unfold calculate_similarity
    have h1 := hbounds (lcase selfDisplay) (lcase bDisplay)
    have h2 := hbounds (lcase selfDefinition) (lcase bDefinition)
    have hkb := calculate_keyword_bonus_nonneg
      (lcase (selfDisplay ++ " " ++ selfDefinition))
      (lcase (bDisplay ++ " " ++ bDefinition))
    apply le_min
    · nlinarith [h1.1, h2.1, hkb]
    · norm_num
  · unfold calculate_similarity
    exact min_le_right _ _

/-- Witness for claim C8 at the sample entry NAM001 with the concrete
longest-common-subsequence ratio. -/
theorem claim_C8_witness :
    8 / 10 ≤ calculate_similarity seqScore
      ("Ama (Undigested food toxins)")
      "Accumulation of undigested food particles leading to toxicity"
      "Ama (Undigested food toxins)"
      "Accumulation of undigested food particles leading to toxicity" ∧
    0 ≤ calculate_similarity seqScore
      ("Ama (Undigested food toxins)")
      "Accumulation of undigested food particles leading to toxicity"
      "Ama (Undigested food toxins)"
      "Accumulation of undigested food particles leading to toxicity" ∧
    calculate_similarity seqScore
      ("Ama (Undigested food toxins)")
      "Accumulation of undigested food particles leading to toxicity"
      "Ama (Undigested food toxins)"
      "Accumulation of undigested food particles leading to toxicity" ≤ 1 :=
  claim_C8_similarity_bounds seqScore seqScore_ok
    ("Ama (Undigested food toxins)")
    "Accumulation of undigested food particles leading to toxicity"
    "Ama (Undigested food toxins)"
    "Accumulation of undigested food particles leading to toxicity"
    (by decide) (by decide)

/-- Claim C9: ConceptMap group assembly is deterministic — two providers
giving identical responses to identical queries yield identical tm2 and
biomedicine groups on the same source vocabulary snapshot. -/
theorem claim_C9_assembler_deterministic (r : String → String → ℚ)
    (p₁ p₂ : Provider) (data : List NamRow)
    (hs : ∀ q sys limit, p₁.searchIcd q sys limit = p₂.searchIcd q sys limit)
    (hg : ∀ c, p₁.getIcdDetails c = p₂.getIcdDetails c) :
    generate_concept_map_groups r p₁ data =
      generate_concept_map_groups r p₂ data := by
  have hp : p₁ = p₂ := by
    cases p₁
    cases p₂
    simp only at hs hg
    congr 1
    · funext q sys limit
      exact hs q sys limit
    · funext c
      exact hg c
  rw [hp]

/-- Witness for claim C9: the demo provider against itself on the sample
vocabulary. -/
theorem claim_C9_witness :
    generate_concept_map_groups seqScore mockProvider
      create_sample_namaste_data =
    generate_concept_map_groups seqScore mockProvider
      create_sample_namaste_data :=
  claim_C9_assembler_deterministic seqScore mockProvider mockProvider
    create_sample_namaste_data (fun _ _ _ => rfl) (fun _ => rfl)

/-- Counterexample to claim C1: with a failing Terminology Provider, the
forward translation of
NAM001 has a body that raises, yet the caller receives the empty list — the
failure is swallowed, not propagated, so an empty result does not imply that
lookups succeeded. -/
theorem claim_C1_counterexample :
    (translate_namaste_to_icd11_body seqScore failProvider
      ("NAM001") "tm2").isOk = false ∧
    translate_namaste_to_icd11 seqScore failProvider ("NAM001") "tm2" = [] := by
  constructor
  · decide
  · decide

/-- Claim C1 (amended): when the Terminology Provider raises during a forward
translation, the `except` handler converts the failure into an empty
candidate list, so callers cannot distinguish a provider failure from an
empty mapping result.  (On the reverse path the provider wrapper
`get_icd11_code_details` already masks failures to `None` before the resolver
sees them.) -/
theorem claim_C1_amended_failures_swallowed (r : String → String → ℚ)
    (p : Provider) (namasteCode targetSystem : String)
    (h : (translate_namaste_to_icd11_body r p namasteCode
      targetSystem).isOk = false) :
    translate_namaste_to_icd11 r p namasteCode targetSystem = [] := by
  unfold translate_namaste_to_icd11
  cases hb : translate_namaste_to_icd11_body r p namasteCode targetSystem with
  | error e => rfl
  | ok res =>
    rw [hb] at h
    simp [Except.isOk, Except.toBool] at h

/-- Witness for the amended claim C1 at the failing provider. -/
theorem claim_C1_witness :
    translate_namaste_to_icd11 seqScore failProvider ("NAM002") "both" = [] :=
  claim_C1_amended_failures_swallowed seqScore failProvider ("NAM002") "both"
    (by decide)

theorem lookup_entry_prop {β : Type} (P : β → Prop) :
    ∀ (L : List (String × β)) (k : String) (v : β),
      (∀ kv ∈ L, P kv.2) → L.lookup k = some v → P v := by
  intro L
  induction L with
  | nil => intro k v _ hl; simp at hl
  | cons kv rest ih =>
    intro k v hall hl
    rw [List.lookup_cons] at hl
    cases hk : (k == kv.1) with
    | true =>
      rw [hk] at hl
      simp only at hl
      cases hl
      exact hall kv (List.mem_cons_self kv rest)
    | false =>
      rw [hk] at hl
      simp only at hl
      exact ih k v (fun x hx => hall x (List.mem_cons_of_mem kv hx)) hl

theorem predefined_table_systems :
    ∀ kv ∈ predefined_mappings, ∀ m ∈ kv.2,
      m.system = "tm2" ∨ m.system = "biomedicine" := by
  decide

theorem predefLoop_unsupported_target (p : Provider) (targetSystem : String)
    (h3 : targetSystem ≠ "both") :
    ∀ l : List PredefEntry,
      (∀ m ∈ l, targetSystem ≠ m.system) →
      predefLoop p targetSystem l = Except.ok [] := by
  intro l
  induction l with
  | nil => intro; rfl
  | cons m rest ih =>
    intro hall
    unfold predefLoop
    have hcond : (targetSystem = "both" || targetSystem = m.system) = false := by
      simp only [Bool.or_eq_false_iff, decide_eq_false_iff_not]
      exact ⟨h3, hall m (List.mem_cons_self m rest)⟩
    rw [hcond]
    simp only [Bool.false_eq_true, if_false]
    exact ih (fun x hx => hall x (List.mem_cons_of_mem m hx))

theorem termLoop_unsupported_target (r : String → String → ℚ) (p : Provider)
    (nd : NamDetails) (targetSystem : String)
    (h1 : targetSystem ≠ "tm2") (h2 : targetSystem ≠ "biomedicine")
    (h3 : targetSystem ≠ "both") :
    ∀ ts : List String,
      termLoop r p nd targetSystem ts = Except.ok [] := by
  intro ts
  induction ts with
  | nil => rfl
  | cons t rest ih =>
    unfold termLoop
    have hc1 : (targetSystem = "tm2" || targetSystem = "both") = false := by
      simp only [Bool.or_eq_false_iff, decide_eq_false_iff_not]
      exact ⟨h1, h3⟩
    have hc2 : (targetSystem = "biomedicine" || targetSystem = "both") = false := by
      simp only [Bool.or_eq_false_iff, decide_eq_false_iff_not]
      exact ⟨h2, h3⟩
    rw [hc1, hc2]
    simp only [Bool.false_eq_true, if_false]
    rw [ih]
    rfl

/-- Counterexample to claim C6: an unrecognized target-system identifier
yields a successful empty candidate list, with no distinguishable
"unsupported system" signal — for a predefined source code and for an unknown
one alike. -/
theorem claim_C6_counterexample :
    translate_namaste_to_icd11_body seqScore mockProvider ("NAM001") "garbage" =
      Except.ok [] ∧
    translate_namaste_to_icd11 seqScore mockProvider ("NAM001") "garbage" = [] ∧
    translate_namaste_to_icd11 seqScore mockProvider ("NAM005") "tm" = [] := by
  refine ⟨by decide, by decide, by decide⟩

/-- Claim C6 (amended): for every target-system identifier other than `tm2`,
`biomedicine` and `both`, forward translation completes successfully with the
empty candidate list — indistinguishable from a successful search that found
nothing; no explicit unsupported-system signal exists. -/
theorem claim_C6_amended_unknown_system_empty (r : String → String → ℚ)
    (p : Provider) (namasteCode targetSystem : String)
    (h1 : targetSystem ≠ "tm2") (h2 : targetSystem ≠ "biomedicine")
    (h3 : targetSystem ≠ "both") :
    translate_namaste_to_icd11_body r p namasteCode targetSystem =
      Except.ok [] ∧
    translate_namaste_to_icd11 r p namasteCode targetSystem = [] := by
  have hbody : translate_namaste_to_icd11_body r p namasteCode targetSystem =
      Except.ok [] := by
    unfold translate_namaste_to_icd11_body
    cases hl : predefined_mappings.lookup namasteCode with
    | some mappings =>
      apply predefLoop_unsupported_target p targetSystem h3
      intro m hm heq
      have hsys : m.system = "tm2" ∨ m.system = "biomedicine" := by
        have := lookup_entry_prop
          (fun l => ∀ m ∈ l, m.system = "tm2" ∨ m.system = "biomedicine")
          predefined_mappings namasteCode mappings
          (fun kv hkv => predefined_table_systems kv hkv) hl
        exact this m hm
      rcases hsys with hs | hs
      · exact h1 (heq.trans hs)
      · exact h2 (heq.trans hs)
    | none =>
      simp only
      unfold perform_automatic_mapping perform_automatic_candidates
      cases hd : get_namaste_code_details namasteCode
        create_sample_namaste_data with
      | none => simp [dedupByKey]
      | some nd =>
        simp [termLoop_unsupported_target r p nd targetSystem h1 h2 h3,
          dedupByKey]
  refine ⟨hbody, ?_⟩
  unfold translate_namaste_to_icd11
  rw [hbody]

/-- Witness for the amended claim C6. -/
theorem claim_C6_witness :
    translate_namaste_to_icd11_body seqScore mockProvider ("NAM003") "icd10" =
      Except.ok [] ∧
    translate_namaste_to_icd11 seqScore mockProvider ("NAM003") "icd10" = [] :=
  claim_C6_amended_unknown_system_empty seqScore mockProvider ("NAM003") "icd10"
    (by decide) (by decide) (by decide)

theorem predefLoop_mem (p : Provider) (targetSystem : String) :
    ∀ (l : List PredefEntry) (res : List FwdCandidate),
      predefLoop p targetSystem l = Except.ok res →
      ∀ c ∈ res, c.mappingMethod = "predefined" ∧ c.confidence = 9 / 10 ∧
        ∃ m ∈ l, c.equivalence = m.equivalence := by
  intro l
  induction l with
  | nil =>
    intro res h c hc
    unfold predefLoop at h
    cases h
    cases hc
  | cons m rest ih =>
    intro res h c hc
    unfold predefLoop at h
    by_cases hcond : (targetSystem = "both" || targetSystem = m.system) = true
    · rw [if_pos hcond] at h
      cases hs : (if m.system = "tm2" then p.searchIcd m.code ("tm2") 1
          else p.searchIcd m.code ("biomedicine") 1) with
      | error e => rw [hs] at h; cases h
      | ok icdResults =>
        rw [hs] at h
        cases icdResults with
        | nil =>
          have := ih res h c hc
          exact ⟨this.1, this.2.1,
            (this.2.2).elim (fun m2 hm2 =>
              ⟨m2, List.mem_cons_of_mem m hm2.1, hm2.2⟩)⟩
        | cons first others =>
          cases ht : predefLoop p targetSystem rest with
          | error e => rw [ht] at h; cases h
          | ok tail =>
            rw [ht] at h
            cases h
            cases hc with
            | head =>
              exact ⟨rfl, rfl, ⟨m, List.mem_cons_self m rest, rfl⟩⟩
            | tail _ hmem =>
              have := ih tail ht c hmem
              exact ⟨this.1, this.2.1,
                (this.2.2).elim (fun m2 hm2 =>
                  ⟨m2, List.mem_cons_of_mem m hm2.1, hm2.2⟩)⟩
    · rw [if_neg hcond] at h
      have := ih res h c hc
      exact ⟨this.1, this.2.1,
        (this.2.2).elim (fun m2 hm2 =>
          ⟨m2, List.mem_cons_of_mem m hm2.1, hm2.2⟩)⟩

/-- Claim C2: for a source code with a predefined mapping entry, every
candidate forward translation returns carries `method = predefined` (never
`automatic`), confidence exactly 0.9 and a curated equivalence from the
table; heuristic candidates never appear, whatever the requested target
system. -/
theorem claim_C2_predefined_short_circuit (r : String → String → ℚ)
    (p : Provider) (namasteCode targetSystem : String)
    (mappings : List PredefEntry)
    (h : predefined_mappings.lookup namasteCode = some mappings) :
    ∀ c ∈ translate_namaste_to_icd11 r p namasteCode targetSystem,
      c.mappingMethod = "predefined" ∧ c.mappingMethod ≠ "automatic" ∧
      c.confidence = 9 / 10 ∧ ∃ m ∈ mappings, c.equivalence = m.equivalence := by
  intro c hc
  unfold translate_namaste_to_icd11 translate_namaste_to_icd11_body at hc
  rw [h] at hc
  simp only at hc
  cases hb : predefLoop p targetSystem mappings with
  | error e =>
    rw [hb] at hc
    cases hc
  | ok res =>
    rw [hb] at hc
    have := predefLoop_mem p targetSystem mappings res hb c hc
    refine ⟨this.1, ?_, this.2.1, this.2.2⟩
    rw [this.1]
    decide

unseal Rat.add Rat.mul Rat.inv Rat.sub in
/-- Witness for claim C2: NAM001 translated to both systems through the demo
provider yields exactly the two curated candidates (the demo search layer
returns its first mock entity for any query). -/
theorem claim_C2_witness :
    predefined_mappings.lookup ("NAM001") =
      some [ { system := "tm2", code := "TM2.02", equivalence := "equivalent" },
             { system := "biomedicine", code := "K30", equivalence := "wider" } ] ∧
    ((translate_namaste_to_icd11 seqScore mockProvider ("NAM001") "both").map
      (fun c => (c.mappingMethod, c.confidence, c.equivalence))) =
      [("predefined", 9 / 10, "equivalent"), ("predefined", 9 / 10, "wider")] := by
  constructor
  · decide
  · have h := claim_C2_predefined_short_circuit seqScore mockProvider
      ("NAM001") "both" _ rfl
    decide

/-- Claim C10: whenever both codes resolve, the confidence reported by
`validate_mapping` is exactly the heuristic text-similarity score of the two
looked-up records — the predefined mapping table (and its fixed 0.9
confidence) is never consulted, so even a curator-asserted pair is scored
purely by text similarity and can fall below the Accept threshold. -/
theorem claim_C10_validate_uses_similarity (r : String → String → ℚ)
    (p : Provider) (namasteCode icd11Code icd11System : String)
    (nd : NamDetails) (icd : IcdEntry) (rest : List IcdEntry)
    (hnd : get_namaste_code_details namasteCode create_sample_namaste_data =
      some nd)
    (hicd : p.searchIcd icd11Code icd11System 1 = Except.ok (icd :: rest)) :
    validate_mapping r p namasteCode icd11Code icd11System =
      ValidateResult.result
        (decide (3 / 10 < calculate_similarity r nd.display nd.definition
          icd.display icd.definition))
        (calculate_similarity r nd.display nd.definition
          icd.display icd.definition)
        (determine_equivalence (calculate_similarity r nd.display
          nd.definition icd.display icd.definition))
        (if 6 / 10 < calculate_similarity r nd.display nd.definition
            icd.display icd.definition then ("Accept")
         else if 3 / 10 < calculate_similarity r nd.display nd.definition
            icd.display icd.definition then ("Review")
         else ("Reject")) := by
  unfold validate_mapping
  rw [hnd, hicd]

unseal Rat.add Rat.mul Rat.inv Rat.sub in
/-- Witness for claim C10: the curator-asserted pair (NAM002, Z73.3,
biomedicine) — fixed predefined confidence 0.9 — is validated with
similarity-derived confidence 0, recommendation Reject. -/
theorem claim_C10_witness :
    validate_mapping seqScore blankZProvider ("NAM002") "Z73.3" "biomedicine" =
      ValidateResult.result false 0 ("related") "Reject" ∧
    (predefined_mappings.lookup ("NAM002")) = some
      [ { system := "tm2", code := "TM2.01", equivalence := "equivalent" },
        { system := "biomedicine", code := "Z73.3", equivalence := "wider" } ] := by
  constructor
  · have h := claim_C10_validate_uses_similarity seqScore blankZProvider
      ("NAM002") "Z73.3" "biomedicine" _ _ _ rfl rfl
    decide
  · decide

theorem scoreMatches_mem (r : String → String → ℚ) (nd : NamDetails)
    (ms : List IcdEntry) (c : FwdCandidate) (hc : c ∈ scoreMatches r nd ms) :
    3 / 10 < c.confidence ∧ c.mappingMethod = "automatic" := by
  unfold scoreMatches at hc
  rw [List.mem_filterMap] at hc
  obtain ⟨m, _, hm⟩ := hc
  by_cases hcond : 3 / 10 < calculate_similarity r nd.display nd.definition
      m.display m.definition
  · rw [if_pos hcond] at hm
    cases hm
    exact ⟨hcond, rfl⟩
  · rw [if_neg hcond] at hm
    cases hm

theorem termLoop_mem (r : String → String → ℚ) (p : Provider)
    (nd : NamDetails) (targetSystem : String) :
    ∀ (ts : List String) (res : List FwdCandidate),
      termLoop r p nd targetSystem ts = Except.ok res →
      ∀ c ∈ res, 3 / 10 < c.confidence ∧ c.mappingMethod = "automatic" := by
  intro ts
  induction ts with
  | nil =>
    intro res h c hc
    unfold termLoop at h
    cases h
    cases hc
  | cons t rest ih =>
    intro res h c hc
    unfold termLoop at h
    cases h1 : (if targetSystem = "tm2" || targetSystem = "both" then
        (p.searchIcd t ("tm2") 3).map (scoreMatches r nd)
      else Except.ok []) with
    | error e => rw [h1] at h; cases h
    | ok tm2Part =>
      rw [h1] at h
      cases h2 : (if targetSystem = "biomedicine" || targetSystem = "both" then
          (p.searchIcd t ("biomedicine") 3).map (scoreMatches r nd)
        else Except.ok []) with
      | error e => rw [h2] at h; cases h
      | ok bioPart =>
        rw [h2] at h
        cases h3 : termLoop r p nd targetSystem rest with
        | error e => rw [h3] at h; cases h
        | ok tailRes =>
          rw [h3] at h
          cases h
          have hpart : ∀ (part : List FwdCandidate)
              (hp : (if True then (p.searchIcd t ("tm2") 3).map
                (scoreMatches r nd) else Except.ok []) = Except.ok part),
              True := fun _ _ => trivial
          rw [List.mem_append, List.mem_append] at hc
          rcases hc with (hc | hc) | hc
          · have hscore : ∃ ms, tm2Part = scoreMatches r nd ms ∨
                tm2Part = [] := by
              by_cases hcond : (targetSystem = "tm2" ||
                  targetSystem = "both") = true
              · rw [if_pos hcond] at h1
                cases hs : p.searchIcd t ("tm2") 3 with
                | error e => rw [hs] at h1; cases h1
                | ok ms =>
                  rw [hs] at h1
                  cases h1
                  exact ⟨ms, Or.inl rfl⟩
              · rw [if_neg hcond] at h1
                cases h1
                exact ⟨[], Or.inr rfl⟩
            obtain ⟨ms, hms | hms⟩ := hscore
            · rw [hms] at hc
              exact scoreMatches_mem r nd ms c hc
            · rw [hms] at hc
              cases hc
          · have hscore : ∃ ms, bioPart = scoreMatches r nd ms ∨
                bioPart = [] := by
              by_cases hcond : (targetSystem = "biomedicine" ||
                  targetSystem = "both") = true
              · rw [if_pos hcond] at h2
                cases hs : p.searchIcd t ("biomedicine") 3 with
                | error e => rw [hs] at h2; cases h2
                | ok ms =>
                  rw [hs] at h2
                  cases h2
                  exact ⟨ms, Or.inl rfl⟩
              · rw [if_neg hcond] at h2
                cases h2
                exact ⟨[], Or.inr rfl⟩
            obtain ⟨ms, hms | hms⟩ := hscore
            · rw [hms] at hc
              exact scoreMatches_mem r nd ms c hc
            · rw [hms] at hc
              cases hc
          · exact ih tailRes h3 c hc

theorem dedupByKey_sublist :
    ∀ (l : List FwdCandidate) (seen : List String),
      List.Sublist (dedupByKey l seen) l := by
  intro l
  induction l with
  | nil => intro seen; exact List.Sublist.refl []
  | cons c rest ih =>
    intro seen
    unfold dedupByKey
    by_cases hk : candidateKey c ∈ seen
    · rw [if_pos hk]
      exact List.Sublist.cons c (ih seen)
    · rw [if_neg hk]
      exact List.Sublist.cons₂ c (ih _)

theorem perform_automatic_mapping_spec (r : String → String → ℚ)
    (p : Provider) (namasteCode targetSystem : String) :
    (∀ c ∈ perform_automatic_mapping r p namasteCode targetSystem,
       3 / 10 < c.confidence ∧ c.mappingMethod = "automatic") ∧
    (perform_automatic_mapping r p namasteCode targetSystem).Pairwise
      (fun a b => b.confidence ≤ a.confidence) ∧
    (perform_automatic_mapping r p namasteCode targetSystem).length ≤ 5 := by
  unfold perform_automatic_mapping
  cases hc : perform_automatic_candidates r p namasteCode targetSystem with
  | error e =>
    simp only
    exact ⟨fun c hc => absurd hc (List.not_mem_nil c), List.Pairwise.nil,
      by simp⟩
  | ok results =>
    simp only
    have hsub : List.Sublist
        ((dedupByKey (results.insertionSort fwdConfGe) []).take 5)
        (results.insertionSort fwdConfGe) :=
      List.Sublist.trans (List.take_sublist 5 _) (dedupByKey_sublist _ _)
    refine ⟨?_, ?_, ?_⟩
    · intro c hcmem
      have hmem : c ∈ results.insertionSort fwdConfGe :=
        hsub.mem hcmem
      rw [List.mem_insertionSort] at hmem
      unfold perform_automatic_candidates at hc
      cases hd : get_namaste_code_details namasteCode
        create_sample_namaste_data with
      | none =>
        rw [hd] at hc
        cases hc
        cases hmem
      | some nd =>
        rw [hd] at hc
        exact termLoop_mem r p nd targetSystem _ results hc c hmem
    · have hsorted : (results.insertionSort fwdConfGe).Pairwise fwdConfGe :=
        List.sorted_insertionSort fwdConfGe results
      exact (hsorted.sublist hsub).imp (fun h => h)
    · calc ((dedupByKey (results.insertionSort fwdConfGe) []).take 5).length
          ≤ 5 := List.length_take_le 5 _

/-- Claim C5: for a source code with no predefined mapping entry, forward
translation returns only candidates with confidence strictly above 0.3 and
method `automatic`, in non-increasing confidence order, and at most 5 of
them. -/
theorem claim_C5_automatic_path (r : String → String → ℚ) (p : Provider)
    (namasteCode targetSystem : String)
    (h : predefined_mappings.lookup namasteCode = none) :
    (∀ c ∈ translate_namaste_to_icd11 r p namasteCode targetSystem,
       3 / 10 < c.confidence ∧ c.mappingMethod = "automatic") ∧
    (translate_namaste_to_icd11 r p namasteCode targetSystem).Pairwise
      (fun a b => b.confidence ≤ a.confidence) ∧
    (translate_namaste_to_icd11 r p namasteCode targetSystem).length ≤ 5 := by
  have htr : translate_namaste_to_icd11 r p namasteCode targetSystem =
      perform_automatic_mapping r p namasteCode targetSystem := by
    unfold translate_namaste_to_icd11 translate_namaste_to_icd11_body
    rw [h]
  rw [htr]
  exact perform_automatic_mapping_spec r p namasteCode targetSystem

/-- Witness for claim C5 at a source code absent from both the predefined
table and the sample vocabulary. -/
theorem claim_C5_witness :
    predefined_mappings.lookup ("NAM999") = none ∧
    (translate_namaste_to_icd11 seqScore mockProvider ("NAM999") "both").length ≤ 5 :=
  ⟨by decide,
   (claim_C5_automatic_path seqScore mockProvider ("NAM999") "both"
     (by decide)).2.2⟩

theorem dedupByKey_not_seen :
    ∀ (l : List FwdCandidate) (seen : List String),
      ∀ x ∈ dedupByKey l seen, candidateKey x ∉ seen := by
  intro l
  induction l with
  | nil =>
    intro seen x hx
    unfold dedupByKey at hx
    cases hx
  | cons c rest ih =>
    intro seen x hx
    unfold dedupByKey at hx
    by_cases hk : candidateKey c ∈ seen
    · rw [if_pos hk] at hx
      exact ih seen x hx
    · rw [if_neg hk] at hx
      cases hx with
      | head => exact hk
      | tail _ hmem =>
        intro hcon
        exact ih (candidateKey c :: seen) x hmem
          (List.mem_cons_of_mem _ hcon)

theorem dedupByKey_pairwise_keys :
    ∀ (l : List FwdCandidate) (seen : List String),
      (dedupByKey l seen).Pairwise
        (fun a b => candidateKey a ≠ candidateKey b) := by
  intro l
  induction l with
  | nil =>
    intro seen
    unfold dedupByKey
    exact List.Pairwise.nil
  | cons c rest ih =>
    intro seen
    unfold dedupByKey
    by_cases hk : candidateKey c ∈ seen
    · rw [if_pos hk]
      exact ih seen
    · rw [if_neg hk]
      refine List.Pairwise.cons ?_ (ih _)
      intro b hb heq
      exact dedupByKey_not_seen rest (candidateKey c :: seen) b hb
        (heq ▸ List.mem_cons_self _ _)

theorem dedupByKey_max :
    ∀ (l : List FwdCandidate) (seen : List String),
      l.Pairwise (fun a b => b.confidence ≤ a.confidence) →
      ∀ c ∈ dedupByKey l seen, ∀ c2 ∈ l,
        candidateKey c2 = candidateKey c → c2.confidence ≤ c.confidence := by
  intro l
  induction l with
  | nil =>
    intro seen _ c hc
    unfold dedupByKey at hc
    cases hc
  | cons x rest ih =>
    intro seen hpw c hc c2 hc2 hkey
    obtain ⟨hx, hrest⟩ := List.pairwise_cons.mp hpw
    unfold dedupByKey at hc
    by_cases hk : candidateKey x ∈ seen
    · rw [if_pos hk] at hc
      cases hc2 with
      | head =>
        exact absurd (hkey ▸ hk) (dedupByKey_not_seen rest seen c hc)
      | tail _ hmem => exact ih seen hrest c hc c2 hmem hkey
    · rw [if_neg hk] at hc
      cases hc with
      | head =>
        cases hc2 with
        | head => exact le_refl _
        | tail _ hmem => exact hx c2 hmem
      | tail _ hcmem =>
        have hne : candidateKey c ≠ candidateKey x := by
          intro heq
          exact dedupByKey_not_seen rest (candidateKey x :: seen) c hcmem
            (heq ▸ List.mem_cons_self _ _)
        cases hc2 with
        | head => exact absurd hkey (fun hq => hne hq.symm)
        | tail _ hmem =>
          exact ih (candidateKey x :: seen) hrest c hcmem c2 hmem hkey

/-- Claim C3 (amended): the forward automatic-mapping path deduplicates by
(target system, target code) — each pair appears at most once in its result
and the surviving candidate has maximal confidence among the
pre-deduplication candidates sharing its pair; the reverse translation path
performs no such deduplication (see the counterexample). -/
theorem claim_C3_amended_forward_dedup (r : String → String → ℚ)
    (p : Provider) (namasteCode targetSystem : String)
    (results : List FwdCandidate)
    (h : perform_automatic_candidates r p namasteCode targetSystem =
      Except.ok results) :
    (perform_automatic_mapping r p namasteCode targetSystem).Pairwise
      (fun a b =>
        ¬(a.base.system = b.base.system ∧ a.base.code = b.base.code)) ∧
    ∀ c ∈ perform_automatic_mapping r p namasteCode targetSystem,
      ∀ c2 ∈ results, c2.base.system = c.base.system →
        c2.base.code = c.base.code → c2.confidence ≤ c.confidence := by
  have hmap : perform_automatic_mapping r p namasteCode targetSystem =
      (dedupByKey (results.insertionSort fwdConfGe) []).take 5 := by
    unfold perform_automatic_mapping
    rw [h]
  rw [hmap]
  constructor
  · have hkeys := dedupByKey_pairwise_keys (results.insertionSort fwdConfGe) []
    have htake := List.Pairwise.sublist (List.take_sublist 5 _) hkeys
    refine htake.imp ?_
    intro a b hne hpair
    apply hne
    unfold candidateKey
    rw [hpair.1, hpair.2]
  · intro c hcmem c2 hc2 hsys hcode
    have hcd : c ∈ dedupByKey (results.insertionSort fwdConfGe) [] :=
      (List.take_sublist 5 _).mem hcmem
    have hsorted : (results.insertionSort fwdConfGe).Pairwise
        (fun a b => b.confidence ≤ a.confidence) :=
      (List.sorted_insertionSort fwdConfGe results).imp (fun hle => hle)
    apply dedupByKey_max (results.insertionSort fwdConfGe) [] hsorted c hcd c2
      ((List.mem_insertionSort fwdConfGe).mpr hc2)
    unfold candidateKey
    rw [hsys, hcode]

set_option maxHeartbeats 1000000 in
set_option maxRecDepth 10000 in
unseal Rat.add Rat.mul Rat.inv Rat.sub in
/-- Counterexample to claim C3: reverse translation does not deduplicate —
the code X99 (no predefined entry) resolved against `dupTextProvider` returns
the source record NAM001 twice, once per search query, so a (system, code)
pair appears twice in one resolution result. -/
theorem claim_C3_counterexample :
    ((reverse_translate_icd11_to_namaste seqScore dupTextProvider
      ("X99") "tm2").map (fun c => (c.details.system, c.details.code))) =
      [("Ayurveda", "NAM001"), ("Ayurveda", "NAM001")] := by
  decide

set_option maxHeartbeats 1000000 in
set_option maxRecDepth 10000 in
unseal Rat.add Rat.mul Rat.inv Rat.sub in
/-- Witness for the amended claim C3 on the forward automatic path: NAM001
against a provider that returns the same entry for every search term. -/
theorem claim_C3_witness :
    (perform_automatic_mapping seqScore sameEntryProvider
      ("NAM001") "tm2").Pairwise
      (fun a b =>
        ¬(a.base.system = b.base.system ∧ a.base.code = b.base.code)) :=
  (claim_C3_amended_forward_dedup seqScore sameEntryProvider ("NAM001") "tm2"
    _ rfl).1

/-- Counterexample to claim C4: for a display containing both "headache" and
"dosha", the extraction adds the headache terms but not the dosha terms
{"constitutional","pattern"} — the display-keyword rules are an `elif` chain,
not cumulative. -/
theorem claim_C4_counterexample :
    strContains (lcase doshaHeadacheDetails.display) "headache" = true ∧
    strContains (lcase doshaHeadacheDetails.display) "dosha" = true ∧
    "headache" ∈ extract_search_terms doshaHeadacheDetails ∧
    "cephalgia" ∈ extract_search_terms doshaHeadacheDetails ∧
    "constitutional" ∉ extract_search_terms doshaHeadacheDetails ∧
    "pattern" ∉ extract_search_terms doshaHeadacheDetails := by
  decide

/-- Claim C4 (amended): the extracted term set is the union of four
contributions — main display term, category terms, body-system terms and
display-keyword terms — where the three keyword groups combine cumulatively
with each other, but within each group only the first matching branch
contributes (headache before indigestion before dosha, digestive before
constitutional before neurological, gastrointestinal before nervous). -/
theorem claim_C4_amended_first_match_union (d : NamDetails) (t : String) :
    t ∈ extract_search_terms d ↔
      (t ∈ mainDisplayTerms d ∨ t ∈ categoryTerms d ∨
        t ∈ bodySystemTerms d ∨ t ∈ displayKeywordTerms d) := by
  unfold extract_search_terms mainDisplayTerms categoryTerms bodySystemTerms
    displayKeywordTerms
  simp only [List.mem_dedup, List.mem_append, or_assoc]
